import Mathlib

/-!
Verification of the hybrid browser-automation / authentication core.

This file shallowly embeds the Python modules
`src/browser/controller.py` (stability waiter),
`src/browser/action_executor.py` (action executor),
`src/browser/auth_handler.py` (authentication state machine),
`src/browser/vision_login_agent.py` and `src/agent/vision_agent.py`
(oracle-response parsing) and proves or refutes the frozen claims about
them.  Strings are manipulated through their underlying character lists
so that every definition reduces in the kernel.  Hash functions (md5)
are modelled as the identity on the hashed text, exceptions as
`Except String`, and browser primitives as environment-supplied
functions that may return errors.
-/

namespace AgentB

/-! ## Character-list string utilities -/

/-- Does `l` start with `p` (character-wise)? -/
def startsWithL : List Char → List Char → Bool
  | _, [] => true
  | [], _ :: _ => false
  | a :: as, b :: bs => a == b && startsWithL as bs

/-- Does `l` end with `p`? -/
def endsWithL (l p : List Char) : Bool :=
  startsWithL l.reverse p.reverse

/-- Does `l` contain `p` as a contiguous sublist? -/
def containsL : List Char → List Char → Bool
  | [], p => p.isEmpty
  | a :: as, p => startsWithL (a :: as) p || containsL as p

/-- Lower-cased character list of a string. -/
def lowerData (s : String) : List Char :=
  s.data.map Char.toLower

/-- Case-insensitive substring test on strings (models Python
`pat.lower() in s.lower()` and Playwright `:has-text`). -/
def containsCI (s pat : String) : Bool :=
  containsL (lowerData s) (lowerData pat)

/-- Case-sensitive substring test on strings (models Python `pat in s`
and the CSS `[attr*=...]` selector without the `i` flag). -/
def containsCS (s pat : String) : Bool :=
  containsL s.data pat.data

/-- Index of the first occurrence of character `c`, models Python
`str.find` (with `none` for `-1`). -/
def firstIdx : List Char → Char → Option Nat
  | [], _ => none
  | a :: as, c =>
    if a == c then some 0
    else match firstIdx as c with
      | some i => some (i + 1)
      | none => none

/-- Index of the last occurrence of character `c`, models Python
`str.rfind`. -/
def lastIdx (l : List Char) (c : Char) : Option Nat :=
  match firstIdx l.reverse c with
  | some i => some (l.length - 1 - i)
  | none => none

/-- Index of the first occurrence of sublist `p`, models Python
`str.find` on a substring pattern. -/
def idxOfSub : List Char → List Char → Option Nat
  | [], p => if p.isEmpty then some 0 else none
  | a :: as, p =>
    if startsWithL (a :: as) p then some 0
    else match idxOfSub as p with
      | some i => some (i + 1)
      | none => none

/-- Strip leading and trailing whitespace, models Python `str.strip`. -/
def trimWs (l : List Char) : List Char :=
  ((l.dropWhile Char.isWhitespace).reverse.dropWhile Char.isWhitespace).reverse

/-- Numeric value of a list of decimal digits. -/
def digitsToNat (l : List Char) : Nat :=
  l.foldl (fun n c => n * 10 + (c.toNat - 48)) 0

/-- Partial model of Python `int(s)`: an optional minus sign followed by
decimal digits (the forms that occur in this program's marker targets).
Other accepted Python spellings (leading `+`, surrounding whitespace,
underscores) do not occur in bracketed marker targets and are mapped to
`none`. -/
def parseIntPy (l : List Char) : Option Int :=
  match l with
  | [] => none
  | c :: rest =>
    if c == '-' then
      if !rest.isEmpty && rest.all Char.isDigit then
        some (-(digitsToNat rest : Int))
      else none
    else if (c :: rest).all Char.isDigit then
      some ((digitsToNat (c :: rest) : Int))
    else none

/-- Python `str.isdigit` restricted to ASCII decimal digits (the only
digits the decision oracle emits as marker targets). -/
def pyIsDigit (s : String) : Bool :=
  !s.data.isEmpty && s.data.all Char.isDigit

/-- Python truthiness of an optional string: `None` and `""` are falsy. -/
def pyFalsy : Option String → Bool
  | none => true
  | some s => s.data.isEmpty

/-- Python `a or b` on optional strings: the first truthy value, else `b`. -/
def pyOr (a b : Option String) : Option String :=
  if pyFalsy a then b else a

/-! ## Stability Waiter (`BrowserController.wait_for_stability`)

The loop polls the page's structural fingerprint once per iteration (up
to `max_attempts` times); `polls` is the list of successively polled
fingerprints.  Inside the loop a fingerprint equal to its predecessor
increments `stable_count` (returning `true` once it reaches 3); a
different fingerprint resets the counter.  After the loop the waiter
returns `stable_count >= 2`.  The md5 hash is modelled as the identity
on the fingerprinted content. -/

/-- One pass of the stability loop: `prev` is `previous_hash`,
`count` is `stable_count`. -/
def stabilityGo {α : Type} [DecidableEq α] : Option α → Nat → List α → Bool
  | _, count, [] => decide (2 ≤ count)
  | prev, count, h :: t =>
    if some h = prev then
      if 3 ≤ count + 1 then true
      else stabilityGo (some h) (count + 1) t
    else stabilityGo (some h) 0 t

/-- `BrowserController.wait_for_stability`, as a function of the polled
fingerprint sequence. -/
def wait_for_stability {α : Type} [DecidableEq α] (polls : List α) : Bool :=
  stabilityGo none 0 polls

/-! ## Data model (`src/agent/schemas.py`) -/

/-- The six action kinds of `AgentAction.action_type`
(`"type"` is spelled `typeText` here). -/
inductive ActionType where
  | click | typeText | navigate | wait | scroll | done
deriving DecidableEq, Repr

/-- `scroll_direction` values. -/
inductive ScrollDir where
  | up | down
deriving DecidableEq, Repr

/-- `AgentAction` (pydantic model): structured action output of the
decision oracle. -/
structure AgentAction where
  reasoning : String := ""
  action_type : ActionType
  target : Option String := none
  value : Option String := none
  should_capture_screenshot : Bool := true
  step_description : String := ""
  scroll_direction : Option ScrollDir := none
deriving DecidableEq, Repr

/-- The tag name and `type` attribute of a resolved element
(`element.evaluate("el => el.tagName.toLowerCase()")` and
`element.get_attribute("type")`, folded into the resolution result). -/
structure ElemInfo where
  tag : String := ""
  typeAttr : Option String := none
deriving DecidableEq, Repr

/-! ## Target normalization (`VisionLoginAgent.decide_login_action`) -/

/-- Lines 272-275 of `vision_login_agent.py`: a truthy all-digit target
is normalized to the bracketed-index notation before the `AgentAction`
is built. -/
def fixTarget : Option String → Option String
  | none => none
  | some s => if pyIsDigit s then some ("[" ++ s ++ "]") else some s

/-! ## Action executor (`src/browser/action_executor.py`)

Browser primitives are supplied by an `ExecEnv`; each may raise
(`Except.error`).  Computations are run in `ERes`, a writer of the
page-interaction trace over `Except String`: an interaction event is
recorded when the primitive is invoked, whether or not it succeeds. -/

/-- Observable page interactions of the executor. -/
inductive PEff where
  | highlight (i : Int)
  | tryClick (i : Int)
  | elemClick (i : Int)
  | typeFill (i : Int) (v : String)
  | typeKeyboard (v : String)
  | navGoto (url : String)
  | netWait
  | scrolled (px : Int)
deriving DecidableEq, Repr

/-- Result of an executor computation: the trace of page interactions
performed so far and the outcome (a value or a raised exception). -/
structure ERes (ε : Type) (α : Type) where
  trace : List ε
  result : Except String α
deriving Repr

/-- Sequencing: effects accumulate; an exception aborts the rest but
keeps the interactions already performed. -/
def ERes.bindE {ε α β : Type} (x : ERes ε α) (f : α → ERes ε β) : ERes ε β :=
  match x.result with
  | .error e => ⟨x.trace, .error e⟩
  | .ok a => let y := f a; ⟨x.trace ++ y.trace, y.result⟩

instance {ε : Type} : Monad (ERes ε) where
  pure a := ⟨[], .ok a⟩
  bind := ERes.bindE

/-- Invoke a primitive: record the interaction event, propagate the
primitive's outcome. -/
def callE {ε α : Type} (eff : ε) (r : Except String α) : ERes ε α :=
  ⟨[eff], r⟩

/-- A non-interacting, possibly-raising read (e.g. `element.evaluate`
probes). -/
def liftErr {ε α : Type} (r : Except String α) : ERes ε α :=
  ⟨[], r⟩

/-- `try ... except Exception` around a computation. -/
def tryCatchE {ε α : Type} (x : ERes ε α) (h : String → ERes ε α) : ERes ε α :=
  match x.result with
  | .ok a => ⟨x.trace, .ok a⟩
  | .error e => let y := h e; ⟨x.trace ++ y.trace, y.result⟩

@[simp] theorem ERes.bind_def {ε α β : Type} (x : ERes ε α) (f : α → ERes ε β) :
    x >>= f = ERes.bindE x f := rfl

@[simp] theorem ERes.pure_def {ε α : Type} (a : α) :
    (pure a : ERes ε α) = ⟨[], .ok a⟩ := rfl

@[simp] theorem ERes.bindE_mk_ok {ε α β : Type} (tr : List ε) (a : α)
    (f : α → ERes ε β) :
    ERes.bindE ⟨tr, .ok a⟩ f = ⟨tr ++ (f a).trace, (f a).result⟩ := rfl

@[simp] theorem ERes.bindE_mk_error {ε α β : Type} (tr : List ε) (e : String)
    (f : α → ERes ε β) :
    ERes.bindE ⟨tr, .error e⟩ f = ⟨tr, .error e⟩ := rfl

/-- The browser-session primitives the executor depends on.  `resolve`
models `_get_element_by_marker` (which catches its own exceptions and
returns `None` on failure) together with the tag/type probes of the
resolved element; the remaining fields are the raw Playwright calls,
free to raise. -/
structure ExecEnv where
  resolve : Int → Option ElemInfo
  highlight : Int → Except String Unit
  nativeClick : Int → Except String Unit
  jsClick : Int → Except String Bool
  isContentEditable : Int → Except String Bool
  fill : Int → String → Except String Unit
  elemClick : Int → Except String Unit
  kbType : String → Except String Unit
  goto : String → Except String Unit
  waitLoad : Except String Unit
  scrollBy : Int → Except String Unit

/-- Outcome of `_try_click_marker`: Playwright native click on the
resolved handle, falling back to the JavaScript MouseEvent click script;
every exception inside is caught, so the call always yields a Bool. -/
def tryClickResult (env : ExecEnv) (i : Int) : Bool :=
  let js : Bool := match env.jsClick i with
    | .ok b => b
    | .error _ => false
  match env.resolve i with
  | some _ =>
    match env.nativeClick i with
    | .ok _ => true
    | .error _ => js
  | none => js

/-- `ActionExecutor._try_click_marker`: records the click attempt and
returns its outcome. -/
def tryClickMarker (env : ExecEnv) (i : Int) : ERes PEff Bool :=
  ⟨[PEff.tryClick i], .ok (tryClickResult env i)⟩

/-- Does the action's `step_description` mention "button" or
"continue" (lower-cased)?  Drives the type-mismatch lookahead. -/
def mentionsButtonContinue (d : String) : Bool :=
  containsCI d "button" || containsCI d "continue"

/-- Is the `type` attribute one of `password`/`text`/`email`
(the inputs the click lookahead refuses to click)? -/
def typeIn3 (t : Option String) : Bool :=
  t == some "password" || t == some "text" || t == some "email"

/-- Strip the surrounding brackets of a `"[N]"` marker target. -/
def stripEnds (l : List Char) : List Char :=
  (l.drop 1).dropLast

/-- The one-step type-mismatch lookahead of `_execute_click` (lines
231-242): when the description mentions a button/continue but the
marker resolves to a password/text/email input, shift to the next
marker. -/
def midAdjust (env : ExecEnv) (a : AgentAction) (k : Int) : Int :=
  match env.resolve k with
  | some el =>
    if mentionsButtonContinue a.step_description &&
        (el.tag == "input" && typeIn3 el.typeAttr) then k + 1 else k
  | none => k

/-- `ActionExecutor._execute_click`: parse the bracketed marker id,
highlight, apply the one-step type-mismatch lookahead, then try the
marker and its two adjacent markers (index-1 only for a positive
index).  Only `int(...)`'s ValueError is caught here; other raises
propagate to `execute`'s catch-all. -/
def executeClick (env : ExecEnv) (a : AgentAction) : ERes PEff Bool :=
  match a.target with
  | none => pure false
  | some t =>
    if startsWithL t.data ['['] && endsWithL t.data [']'] then
      match parseIntPy (stripEnds t.data) with
      | none => pure false
      | some k => do
        callE (PEff.highlight k) (env.highlight k)
        let mid : Int := midAdjust env a k
        let b0 ← tryClickMarker env mid
        if b0 then pure true
        else do
          let b1 ← tryClickMarker env (mid + 1)
          if b1 then pure true
          else if 0 < mid then do
            let b2 ← tryClickMarker env (mid - 1)
            if b2 then pure true else pure false
          else pure false
    else pure false

/-- The bad `type` attributes for a type action's target
(checkbox/radio/submit/button). -/
def typeIn4 (t : Option String) : Bool :=
  t == some "checkbox" || t == some "radio" ||
  t == some "submit" || t == some "button"

/-- Is marker `i` an acceptable retarget for typing (an input/textarea
that is not a checkbox/radio/submit/button)? -/
def okAltTarget (env : ExecEnv) (i : Int) : Bool :=
  match env.resolve i with
  | some alt => (alt.tag == "input" || alt.tag == "textarea") && !typeIn4 alt.typeAttr
  | none => false

/-- The forward scan of `_execute_type`: when the resolved element is a
checkbox/radio/submit/button, look up to four markers ahead for the
nearest text-capable input. -/
def retargetScan (env : ExecEnv) (k : Int) (el : ElemInfo) : Int × ElemInfo :=
  match [1, 2, 3, 4].find? (fun off => okAltTarget env (k + (off : Int))) with
  | some off => (k + (off : Int), ((env.resolve (k + (off : Int))).getD el))
  | none => (k, el)

/-- `ActionExecutor._execute_type`: guard against falsy target/value,
parse the marker, retarget away from non-text inputs, then fill (with a
keystroke fallback) or keystroke-type into editable regions.  The
handler catches all of its own exceptions and returns `False`. -/
def executeType (env : ExecEnv) (a : AgentAction) : ERes PEff Bool :=
  tryCatchE
    (if pyFalsy a.target || pyFalsy a.value then pure false
     else
       let t := a.target.getD ""
       let v := a.value.getD ""
       if startsWithL t.data ['['] && endsWithL t.data [']'] then
         match parseIntPy (stripEnds t.data) with
         | none => pure false
         | some k =>
           match env.resolve k with
           | none => pure false
           | some el => do
             let ke : Int × ElemInfo :=
               if typeIn4 el.typeAttr then retargetScan env k el else (k, el)
             callE (PEff.highlight ke.1) (env.highlight ke.1)
             let ce ← liftErr (env.isContentEditable ke.1)
             if ce || ke.2.tag == "div" then do
               callE (PEff.elemClick ke.1) (env.elemClick ke.1)
               callE (PEff.typeKeyboard v) (env.kbType v)
               pure true
             else
               tryCatchE
                 (do callE (PEff.typeFill ke.1 v) (env.fill ke.1 v); pure true)
                 (fun _ => do
                   callE (PEff.elemClick ke.1) (env.elemClick ke.1)
                   callE (PEff.typeKeyboard v) (env.kbType v)
                   pure true)
       else pure false)
    (fun _ => pure false)

/-- `ActionExecutor._execute_navigate`. -/
def executeNavigate (env : ExecEnv) (a : AgentAction) : ERes PEff Bool :=
  match a.value with
  | none => pure false
  | some url =>
    if url.data.isEmpty then pure false
    else
      tryCatchE (do callE (PEff.navGoto url) (env.goto url); pure true)
        (fun _ => pure false)

/-- `ActionExecutor._execute_wait`: a load-state timeout is treated as
success. -/
def executeWait (env : ExecEnv) : ERes PEff Bool :=
  tryCatchE (do callE PEff.netWait env.waitLoad; pure true)
    (fun _ => pure true)

/-- `ActionExecutor._execute_scroll`. -/
def executeScroll (env : ExecEnv) (a : AgentAction) : ERes PEff Bool :=
  let dir := a.scroll_direction.getD ScrollDir.down
  let px : Int := if dir = ScrollDir.down then 500 else -500
  tryCatchE (do callE (PEff.scrolled px) (env.scrollBy px); pure true)
    (fun _ => pure false)

/-- The dispatch on `action_type` inside `ActionExecutor.execute`. -/
def executeAction (env : ExecEnv) (a : AgentAction) : ERes PEff Bool :=
  match a.action_type with
  | .click => executeClick env a
  | .typeText => executeType env a
  | .navigate => executeNavigate env a
  | .wait => executeWait env
  | .scroll => executeScroll env a
  | .done => pure true

/-- `ActionExecutor.execute`: the public entry point; its catch-all
converts every raised exception into a `False` outcome. -/
def execute (env : ExecEnv) (a : AgentAction) : ERes PEff Bool :=
  tryCatchE (executeAction env a) (fun _ => pure false)

/-- The marker indices at which a click was attempted, in order. -/
def clickAttempts (tr : List PEff) : List Int :=
  tr.filterMap (fun e => match e with
    | PEff.tryClick i => some i
    | _ => none)

/-! ## Page model and DOM selector heuristics (`auth_handler.py`)

A page is the document-ordered list of its elements;
`page.query_selector(sel)` returns the first element matching `sel`.
Element text models the visible inner text (including descendants, as
Playwright `:has-text` and `inner_text` see it). -/

/-- An element of the live page, with the attributes the auth handler's
selectors inspect. -/
structure PageElem where
  tag : String := ""
  text : String := ""
  href : Option String := none
  typeAttr : Option String := none
  nameAttr : Option String := none
  idAttr : Option String := none
  autocompleteAttr : Option String := none
  placeholderAttr : Option String := none
  role : Option String := none
  classes : List String := []
  visible : Bool := true
deriving DecidableEq, Repr

/-- A page: its elements in document order. -/
def Page := List PageElem

/-- Attribute equality selector `[attr="v"]`. -/
def attrEq (a : Option String) (v : String) : Bool :=
  match a with
  | some x => x == v
  | none => false

/-- Substring attribute selector `[attr*="v"]` (case-sensitive). -/
def attrContainsCS (a : Option String) (v : String) : Bool :=
  match a with
  | some x => containsCS x v
  | none => false

/-- Substring attribute selector `[attr*="v" i]` (case-insensitive). -/
def attrContainsCI (a : Option String) (v : String) : Bool :=
  match a with
  | some x => containsCI x v
  | none => false

/-- `query_selector` on the page: first match in document order. -/
def querySelector (page : Page) (m : PageElem → Bool) : Option PageElem :=
  List.find? m page

/-- The `element = query_selector(sel); if element and element.is_visible()`
idiom: the first match, provided it is visible. -/
def queryVisible (page : Page) (m : PageElem → Bool) : Option PageElem :=
  match querySelector page m with
  | some e => if e.visible then some e else none
  | none => none

/-- Walk an ordered selector list; for each selector take its first
match if visible, accept it if `ok` passes (the Python text re-check),
otherwise `continue` with the next selector. -/
def firstQueryFiltered (page : Page) (ok : PageElem → Bool) :
    List (PageElem → Bool) → Option PageElem
  | [] => none
  | m :: rest =>
    match queryVisible page m with
    | some e => if ok e then some e else firstQueryFiltered page ok rest
    | none => firstQueryFiltered page ok rest

/-- Walk an ordered selector list without a re-check. -/
def firstQuery (page : Page) (ms : List (PageElem → Bool)) : Option PageElem :=
  firstQueryFiltered page (fun _ => true) ms

/-- Does the element's visible text contain a sign-up-indicating term
(`'sign up' in text_lower or 'signup' in text_lower or 'register' in
text_lower`)? -/
def signupText3 (e : PageElem) : Bool :=
  containsCI e.text "sign up" || containsCI e.text "signup" ||
  containsCI e.text "register"

/-- The weaker sign-up test of the href fallback
(`'sign up' not in text.lower() and 'signup' not in text.lower()`
— note: no `register` check there). -/
def signupText2 (e : PageElem) : Bool :=
  containsCI e.text "sign up" || containsCI e.text "signup"

/-- Selector `tag:has-text("pat"):not(:has-text("Sign up"))`. -/
def textSel (tag pat : String) (e : PageElem) : Bool :=
  e.tag == tag && containsCI e.text pat && !containsCI e.text "Sign up"

/-- The six text selectors of `_navigate_to_login_page`, in priority
order. -/
def loginTextSelectors : List (PageElem → Bool) :=
  [textSel "a" "Sign in", textSel "a" "Log in",
   textSel "button" "Sign in", textSel "button" "Log in",
   textSel "a" "Login", textSel "button" "Login"]

/-- Selector `[href*="/login"]:not([href*="sign"])`. -/
def hrefSelLogin (e : PageElem) : Bool :=
  attrContainsCS e.href "/login" && !attrContainsCS e.href "sign"

/-- Selector `[href*="/signin"]:not([href*="signup"])`. -/
def hrefSelSignin (e : PageElem) : Bool :=
  attrContainsCS e.href "/signin" && !attrContainsCS e.href "signup"

/-- `AuthHandler._navigate_to_login_page`: try the text selectors with
the three-term sign-up re-check, then the href-pattern fallbacks with
the two-term re-check; the returned element is the one clicked
(`none` when nothing was clicked and the method returns `False`). -/
def navigate_to_login_page (page : Page) : Option PageElem :=
  match firstQueryFiltered page (fun e => !signupText3 e) loginTextSelectors with
  | some e => some e
  | none =>
    firstQueryFiltered page (fun e => !signupText2 e)
      [hrefSelLogin, hrefSelSignin]

/-- The email-field selectors of `_fill_email_field`. -/
def emailSelectors : List (PageElem → Bool) :=
  [fun e => e.tag == "input" && attrEq e.typeAttr "email",
   fun e => e.tag == "input" && attrEq e.nameAttr "email",
   fun e => e.tag == "input" && attrContainsCI e.placeholderAttr "email",
   fun e => e.tag == "input" && attrEq e.autocompleteAttr "email",
   fun e => e.tag == "input" && attrEq e.autocompleteAttr "username",
   fun e => e.tag == "input" && attrContainsCI e.idAttr "email",
   fun e => e.tag == "input" && attrEq e.nameAttr "username"]

/-- `AuthHandler._fill_email_field`: the field filled, if any. -/
def fill_email_field (page : Page) : Option PageElem :=
  firstQuery page emailSelectors

/-- The password-field selectors of `_is_password_field_visible`
(note: the `[id*="password"]` selector there is case-sensitive). -/
def passwordVisibleSelectors : List (PageElem → Bool) :=
  [fun e => e.tag == "input" && attrEq e.typeAttr "password",
   fun e => e.tag == "input" && attrEq e.autocompleteAttr "current-password",
   fun e => e.tag == "input" && attrEq e.nameAttr "password",
   fun e => e.tag == "input" && attrContainsCS e.idAttr "password"]

/-- `AuthHandler._is_password_field_visible`. -/
def is_password_field_visible (page : Page) : Bool :=
  (firstQuery page passwordVisibleSelectors).isSome

/-- The Continue/Next selectors of `_click_continue_button`
(`button[type="submit"]:visible` filters visibility at query time). -/
def continueSelectors : List (PageElem → Bool) :=
  [fun e => e.tag == "button" && containsCI e.text "Continue",
   fun e => e.tag == "button" && containsCI e.text "Next",
   fun e => e.tag == "button" && containsCI e.text "Continue with email",
   fun e => e.tag == "button" && attrEq e.typeAttr "submit" && e.visible]

/-- `AuthHandler._click_continue_button`: the button clicked, if any. -/
def click_continue_button (page : Page) : Option PageElem :=
  firstQuery page continueSelectors

/-- The password-field selectors of `_fill_password_field`
(here `[id*="password" i]` is case-insensitive). -/
def fillPasswordSelectors : List (PageElem → Bool) :=
  [fun e => e.tag == "input" && attrEq e.typeAttr "password",
   fun e => e.tag == "input" && attrEq e.nameAttr "password",
   fun e => e.tag == "input" && attrEq e.autocompleteAttr "current-password",
   fun e => e.tag == "input" && attrContainsCI e.idAttr "password"]

/-- `AuthHandler._fill_password_field`: the field filled, if any. -/
def fill_password_field (page : Page) : Option PageElem :=
  firstQuery page fillPasswordSelectors

/-- The submit selectors of `_submit_login_form`. -/
def submitSelectors : List (PageElem → Bool) :=
  [fun e => e.tag == "button" && containsCI e.text "Continue with password",
   fun e => e.tag == "button" && containsCI e.text "Log in",
   fun e => e.tag == "button" && containsCI e.text "Sign in",
   fun e => e.tag == "button" && containsCI e.text "Continue",
   fun e => e.tag == "button" && attrEq e.typeAttr "submit" && e.visible,
   fun e => e.tag == "input" && attrEq e.typeAttr "submit"]

/-- `AuthHandler._submit_login_form`: a submit control clicked, or the
Enter-in-password-field fallback. -/
def submit_login_form (page : Page) : Option PageElem :=
  match firstQuery page submitSelectors with
  | some e => some e
  | none =>
    queryVisible page (fun e => e.tag == "input" && attrEq e.typeAttr "password")

/-- The inline-error selectors of `_check_for_error_messages`
(`text="..."` is an exact text match). -/
def errorSelectors : List (PageElem → Bool) :=
  [fun e => e.text == "Incorrect password",
   fun e => e.text == "Invalid email",
   fun e => e.text == "Invalid credentials",
   fun e => e.text == "Login failed",
   fun e => attrEq e.role "alert",
   fun e => e.classes.contains "error",
   fun e => e.classes.contains "error-message",
   fun e => containsCI (String.intercalate " " e.classes) "error"]

/-- `AuthHandler._check_for_error_messages`: the first visible match's
(stripped) text. -/
def check_for_error_messages (page : Page) : Option String :=
  match firstQuery page errorSelectors with
  | some e => some (String.mk (trimWs e.text.data))
  | none => none

/-! ## Authentication state machine (`AuthHandler`) -/

/-- The `actions_taken` milestone flags. -/
structure ActionsTaken where
  navigated_to_login : Bool
  filled_email : Bool
  clicked_continue_after_email : Bool
  filled_password : Bool
  submitted_login : Bool
deriving DecidableEq, Repr

/-- The milestones, as a type (for quantifying over them). -/
inductive Milestone where
  | navigatedToLogin | filledEmail | clickedContinueAfterEmail
  | filledPassword | submittedLogin
deriving DecidableEq, Repr

/-- Read one milestone flag. -/
def getMilestone (s : ActionsTaken) : Milestone → Bool
  | .navigatedToLogin => s.navigated_to_login
  | .filledEmail => s.filled_email
  | .clickedContinueAfterEmail => s.clicked_continue_after_email
  | .filledPassword => s.filled_password
  | .submittedLogin => s.submitted_login

/-- The milestones the retry-reset path un-sets: the
identifier/advance/secret/submit milestones, i.e. everything except the
login-navigation milestone. -/
def secretRelatedMilestones : List Milestone :=
  [.filledEmail, .clickedContinueAfterEmail, .filledPassword, .submittedLogin]

/-- `AuthHandler._reset_actions` (lines 517-525): assign the literal
milestone dictionary that keeps `navigated_to_login` `True` and clears
the four form milestones. -/
def reset_actions (_ : ActionsTaken) : ActionsTaken :=
  { navigated_to_login := true
    filled_email := false
    clicked_continue_after_email := false
    filled_password := false
    submitted_login := false }

/-- Mutable state of one `authenticate` run: the milestones plus the
stuck-detection fields. -/
structure AuthState where
  actions : ActionsTaken
  previousState : Option (List Char)
  stuckCounter : Nat
deriving DecidableEq, Repr

/-- Initial state of `AuthHandler.__init__`. -/
def initAuthState : AuthState :=
  { actions :=
      { navigated_to_login := false, filled_email := false
        clicked_continue_after_email := false, filled_password := false
        submitted_login := false }
    previousState := none
    stuckCounter := 0 }

/-- `max_stuck_iterations`. -/
def maxStuckIterations : Nat := 2

/-- The 2FA/email-verification keyword vocabulary (`twofa_keywords`). -/
def twofaKeywords : List String :=
  ["two-factor", "2fa", "two factor", "2-factor",
   "verification code", "authenticator", "security code",
   "6-digit", "authentication code", "verify your identity",
   "enter code", "verification", "multi-factor",
   "check your email", "email verification", "sent you an email",
   "sent you a link", "magic link", "click the link",
   "verify your email", "email sent", "we've sent you",
   "check your inbox", "sent a link", "open the email",
   "confirmation email", "verify email address"]

/-- The decision returned by `VisionLoginAgent.decide_login_action`
for one iteration. -/
structure VisionState where
  isLoggedIn : Bool := false
  isLoginPage : Bool := false
  action : Option AgentAction := none
deriving Repr

/-- What one iteration of the `authenticate` loop observes of the page
and of the oracle.  `url`/`content` are the start-of-iteration page
data (fingerprinted by `_get_page_state`); `postContent`/`postTitle`/
`postUrl` are the page data inspected by `_detect_2fa_page` after an
advance or submit; `fallbackResult` is the executor outcome of the
oracle-recommended action; `humanOk` is whether the human-intervention
wait saw the page change. -/
structure IterEnv where
  url : String := ""
  content : String := ""
  page : Page := []
  vision : VisionState := {}
  fallbackResult : Bool := false
  postContent : String := ""
  postTitle : String := ""
  postUrl : String := ""
  humanOk : Bool := false

/-- Configuration of an `AuthHandler`: whether the SoM marker and
action executor collaborators were provided, and the per-step
environment. -/
structure AuthCfg where
  hasSom : Bool := true
  hasExecutor : Bool := true
  env : Nat → IterEnv := fun _ => {}

/-- Observable side effects of the authentication loop. -/
inductive AEff where
  | markPage | removeMarkers | screenshot
  | execAction (a : AgentAction)
  | navClick | fillEmailEff | clickContinueEff | fillPasswordEff
  | submitEff | humanWaitEff
deriving DecidableEq, Repr

/-- Is this effect a mutating action against the page (as opposed to an
observation such as marking, screenshotting, or waiting)? -/
def isPageAction : AEff → Bool
  | .execAction _ => true
  | .navClick => true
  | .fillEmailEff => true
  | .clickContinueEff => true
  | .fillPasswordEff => true
  | .submitEff => true
  | _ => false

/-- `AuthHandler._get_page_state`: the md5 of `f"{url}:{content[:500]}"`,
modelled as the hashed text itself. -/
def get_page_state (env : IterEnv) : List Char :=
  env.url.data ++ ':' :: env.content.data.take 500

/-- `AuthHandler._detect_2fa_page`: keyword scan over the lower-cased
page content, title and URL. -/
def detect_2fa_page (env : IterEnv) : Bool :=
  twofaKeywords.any (fun kw =>
    containsCI (env.postContent ++ " " ++ env.postTitle ++ " " ++ env.postUrl) kw)

/-- `AuthHandler._vision_fallback_action`: requires both collaborators;
marks the page, executes the oracle's action, removes the markers, and
reports the executor outcome. -/
def vision_fallback_action (cfg : AuthCfg) (env : IterEnv) : List AEff × Bool :=
  if cfg.hasSom && cfg.hasExecutor then
    match env.vision.action with
    | none => ([], false)
    | some a => ([AEff.markPage, AEff.execAction a, AEff.removeMarkers],
                 env.fallbackResult)
  else ([], false)

/-- Control outcome of a block of the loop body: `cont` models a Python
`continue`, `fall` falls through to the next block, `finish` returns
from `authenticate`. -/
inductive BRes where
  | cont (s : AuthState)
  | fall (s : AuthState)
  | finish (b : Bool)
deriving Repr

/-- Sequence two blocks: the second runs only when the first falls
through. -/
def seqB (x : List AEff × BRes) (f : AuthState → List AEff × BRes) :
    List AEff × BRes :=
  match x with
  | (effs, BRes.fall s) => let y := f s; (effs ++ y.1, y.2)
  | other => other

/-- Stuck-detection block (lines 142-148): once the stuck counter has
reached the threshold, escalate to the oracle; a successful escalation
resets the counter and restarts the loop. -/
def stuckBlock (cfg : AuthCfg) (env : IterEnv) (s : AuthState) :
    List AEff × BRes :=
  if maxStuckIterations ≤ s.stuckCounter then
    let fb := vision_fallback_action cfg env
    if fb.2 then (fb.1, BRes.cont { s with stuckCounter := 0 })
    else (fb.1, BRes.fall s)
  else ([], BRes.fall s)

/-- Login-navigation block (lines 150-182): believe the oracle when it
says this is already the login page; otherwise try the DOM selectors,
then an oracle-recommended click; on total failure fall through with a
warning. -/
def navBlock (cfg : AuthCfg) (env : IterEnv) (s : AuthState) :
    List AEff × BRes :=
  if s.actions.navigated_to_login then ([], BRes.fall s)
  else if env.vision.isLoginPage then
    ([], BRes.cont { s with actions := { s.actions with navigated_to_login := true } })
  else
    match navigate_to_login_page env.page with
    | some _ =>
      ([AEff.navClick],
       BRes.cont { s with actions := { s.actions with navigated_to_login := true } })
    | none =>
      match env.vision.action with
      | some a =>
        if a.action_type = ActionType.click then
          let fb := vision_fallback_action cfg env
          if fb.2 then
            (fb.1,
             BRes.cont { s with actions := { s.actions with navigated_to_login := true } })
          else (fb.1, BRes.fall s)
        else ([], BRes.fall s)
      | none => ([], BRes.fall s)

/-- Identifier block (lines 186-192): fill the email field if possible;
the iteration restarts either way. -/
def emailBlock (env : IterEnv) (s : AuthState) : List AEff × BRes :=
  if s.actions.filled_email then ([], BRes.fall s)
  else
    match fill_email_field env.page with
    | some _ =>
      ([AEff.fillEmailEff],
       BRes.cont { s with actions := { s.actions with filled_email := true } })
    | none => ([], BRes.cont s)

/-- Advance block (lines 194-249): skip the Continue click when a
password field is already visible; otherwise click Continue via DOM or
the oracle, checking for an email-verification gate after a successful
advance (a verification gate here decides the whole run). -/
def advanceBlock (cfg : AuthCfg) (env : IterEnv) (s : AuthState) :
    List AEff × BRes :=
  if s.actions.clicked_continue_after_email then ([], BRes.fall s)
  else if is_password_field_visible env.page then
    ([], BRes.cont
      { s with actions := { s.actions with clicked_continue_after_email := true } })
  else
    let s2 : AuthState :=
      { s with actions := { s.actions with clicked_continue_after_email := true } }
    match click_continue_button env.page with
    | some _ =>
      if detect_2fa_page env then
        ([AEff.clickContinueEff, AEff.humanWaitEff], BRes.finish env.humanOk)
      else ([AEff.clickContinueEff], BRes.cont s2)
    | none =>
      let fb := vision_fallback_action cfg env
      if fb.2 then
        if detect_2fa_page env then
          (fb.1 ++ [AEff.humanWaitEff], BRes.finish env.humanOk)
        else (fb.1, BRes.cont s2)
      else (fb.1, BRes.cont s)

/-- Secret block (lines 251-257). -/
def pwBlock (env : IterEnv) (s : AuthState) : List AEff × BRes :=
  if s.actions.filled_password then ([], BRes.fall s)
  else
    match fill_password_field env.page with
    | some _ =>
      ([AEff.fillPasswordEff],
       BRes.cont { s with actions := { s.actions with filled_password := true } })
    | none => ([], BRes.cont s)

/-- Submit block (lines 259-275): after a successful submit, a detected
2FA gate waits for the human; only a timeout is fatal, otherwise the
iteration falls through to the error check. -/
def submitBlock (env : IterEnv) (s : AuthState) : List AEff × BRes :=
  if s.actions.submitted_login then ([], BRes.fall s)
  else
    match submit_login_form env.page with
    | some _ =>
      let s2 : AuthState :=
        { s with actions := { s.actions with submitted_login := true } }
      if detect_2fa_page env then
        if env.humanOk then ([AEff.submitEff, AEff.humanWaitEff], BRes.fall s2)
        else ([AEff.submitEff, AEff.humanWaitEff], BRes.finish false)
      else ([AEff.submitEff], BRes.fall s2)
    | none => ([], BRes.fall s)

/-- Error-recovery block (lines 277-284): an inline error message
triggers `_reset_actions`. -/
def errorBlock (env : IterEnv) (s : AuthState) : List AEff × BRes :=
  match check_for_error_messages env.page with
  | some _ => ([], BRes.fall { s with actions := reset_actions s.actions })
  | none => ([], BRes.fall s)

/-- Result of one loop iteration: continue with a new state, or return. -/
inductive IterOut where
  | next (s : AuthState)
  | done (b : Bool)
deriving Repr

/-- Convert the final block control into the iteration outcome (both a
`continue` and falling off the loop body proceed to the next step). -/
def toIterOut : BRes → IterOut
  | .cont s => .next s
  | .fall s => .next s
  | .finish b => .done b

/-- The observation effects every iteration performs before consulting
the oracle (marking, screenshotting, unmarking). -/
def preludeEffs (cfg : AuthCfg) : List AEff :=
  (if cfg.hasSom then [AEff.markPage] else []) ++ [AEff.screenshot] ++
  (if cfg.hasSom then [AEff.removeMarkers] else [])

/-- One iteration of the `authenticate` loop (lines 99-284): update the
stuck counter from the structural fingerprint, take the marked
screenshot, ask the oracle, then run the milestone blocks in order. -/
def authIteration (cfg : AuthCfg) (env : IterEnv) (s : AuthState) :
    List AEff × IterOut :=
  let fp := get_page_state env
  let s1 : AuthState :=
    if some fp = s.previousState then
      { s with stuckCounter := s.stuckCounter + 1 }
    else { s with stuckCounter := 0, previousState := some fp }
  let pre := preludeEffs cfg
  if env.vision.isLoggedIn then (pre, IterOut.done true)
  else
    let r :=
      seqB (stuckBlock cfg env s1) (fun s => seqB (navBlock cfg env s)
        (fun s => seqB (emailBlock env s) (fun s => seqB (advanceBlock cfg env s)
          (fun s => seqB (pwBlock env s) (fun s => seqB (submitBlock env s)
            (errorBlock env))))))
    (pre ++ r.1, toIterOut r.2)

/-- The credentials map (`dict.get` returns `none` for a missing key). -/
structure Credentials where
  email : Option String := none
  username : Option String := none
  password : Option String := none

/-- The bounded main loop of `authenticate`: `remaining` steps left,
`stepIdx` the 1-based step number; exhausting the budget yields
`False`. -/
def authLoop (cfg : AuthCfg) : Nat → Nat → AuthState → List AEff × Bool
  | 0, _, _ => ([], false)
  | n + 1, stepIdx, s =>
    match authIteration cfg (cfg.env stepIdx) s with
    | (effs, IterOut.next s2) =>
      let r := authLoop cfg n (stepIdx + 1) s2
      (effs ++ r.1, r.2)
    | (effs, IterOut.done b) => (effs, b)

/-- `AuthHandler.authenticate` (lines 73-286): the missing-credentials
guard, then the bounded step loop. -/
def authenticate (cfg : AuthCfg) (creds : Credentials) (maxSteps : Nat) :
    List AEff × Bool :=
  let email := pyOr creds.email creds.username
  let password := creds.password
  if pyFalsy email || pyFalsy password then ([], false)
  else authLoop cfg maxSteps 1 initAuthState

/-! ## Oracle-response parsing

`json.loads` is abstracted as a function `loads : String → Option J`
into an abstract parsed-JSON type `J`; dictionary access on the parsed
value is abstracted by decoder functions supplied alongside.  A
malformed response is one the parser rejects (`loads = none`). -/

/-- The fallback action of `VisionWebAgent._parse_action_response` on a
parse failure. -/
def parseFallbackAction : AgentAction :=
  { reasoning := "Failed to parse LLM response"
    action_type := .wait
    should_capture_screenshot := false
    step_description := "Waiting due to parse error" }

/-- `VisionWebAgent._parse_action_response`: slice the response between
the first brace and the last brace, `json.loads` it, and validate into
an `AgentAction` (`toAction`, modelling `AgentAction(**action_dict)`,
returns `none` on a pydantic validation error); every failure yields
the fallback wait action. -/
def parse_action_response {J : Type} (loads : String → Option J)
    (toAction : J → Option AgentAction) (response : String) : AgentAction :=
  let l := response.data
  let startIdx := firstIdx l '{'
  let endIdx : Nat := match lastIdx l '}' with
    | some i => i + 1
    | none => 0
  match startIdx with
  | none => parseFallbackAction
  | some s =>
    if endIdx = 0 then parseFallbackAction
    else
      let jsonStr := String.mk ((l.drop s).take (endIdx - s))
      match loads jsonStr with
      | none => parseFallbackAction
      | some j =>
        match toAction j with
        | some a => a
        | none => parseFallbackAction

/-- The raw `action` dictionary of a parsed login decision
(`decision.get("action", {})`; absent keys are `none`). -/
structure ActionJ where
  action_type : Option String := none
  target : Option String := none
  value : Option String := none
  reasoning : Option String := none
  step_description : Option String := none

/-- The raw parsed login-decision dictionary. -/
structure DecisionJ where
  is_login_page : Option Bool := none
  is_logged_in : Option Bool := none
  reasoning : Option String := none
  action : Option ActionJ := none

/-- The structured result of `decide_login_action`. -/
structure LoginResult where
  action : AgentAction
  isLoggedIn : Bool
  isLoginPage : Bool
  reasoning : String
deriving Repr

/-- The safe default `decide_login_action` returns when the response
text has no parseable JSON. -/
def loginParseFallback : LoginResult :=
  { action :=
      { action_type := .wait
        reasoning := "Failed to parse login decision"
        step_description := "Waiting to analyze page"
        should_capture_screenshot := true }
    isLoggedIn := false
    isLoginPage := false
    reasoning := "" }

/-- The JSON-extraction logic of `decide_login_action` (lines 227-245):
prefer a fenced json code block, then any fenced block, then the
first-brace/last-brace slice; otherwise keep the whole text. -/
def extractLoginJson (response : String) : List Char :=
  let l := response.data
  let fence := String.data "\x60\x60\x60"
  let fenceJson := String.data "\x60\x60\x60json"
  if containsL l fenceJson then
    let js := (idxOfSub l fenceJson).getD 0 + 7
    let rest := l.drop js
    match idxOfSub rest fence with
    | some i => trimWs (rest.take i)
    | none => trimWs rest.dropLast
  else if containsL l fence then
    let js := (idxOfSub l fence).getD 0 + 3
    let rest := l.drop js
    match idxOfSub rest fence with
    | some i => trimWs (rest.take i)
    | none => trimWs rest.dropLast
  else
    match firstIdx l '{', lastIdx l '}' with
    | some s, some e =>
      if s < e + 1 then trimWs ((l.drop s).take (e + 1 - s)) else l
    | _, _ => l

/-- Convert a JSON `action_type` string into the pydantic literal;
`none` models a `ValidationError` raised by `AgentAction(...)`. -/
def strToActionType (s : String) : Option ActionType :=
  if s == "click" then some .click
  else if s == "type" then some .typeText
  else if s == "navigate" then some .navigate
  else if s == "wait" then some .wait
  else if s == "scroll" then some .scroll
  else if s == "done" then some .done
  else none

/-- The response-handling tail of `VisionLoginAgent.decide_login_action`
(lines 226-297): extract and parse the JSON (falling back to the wait
decision), substitute the password placeholders, normalize a bare-digit
target, and build the result.  An invalid `action_type` raises out of
the method (`Except.error`), as the pydantic construction is outside
the `try`. -/
def decide_login_action {J : Type} (loads : String → Option J)
    (decode : J → DecisionJ) (creds : Credentials) (response : String) :
    Except String LoginResult :=
  match loads (String.mk (extractLoginJson response)) with
  | none => .ok loginParseFallback
  | some j =>
    let d := decode j
    let ad := d.action.getD {}
    let value0 := ad.value
    let value :=
      if value0 == some "[password]" || value0 == some "[provided]" then
        creds.password
      else value0
    let target := fixTarget ad.target
    match strToActionType (ad.action_type.getD "wait") with
    | none => .error "ValidationError"
    | some ty =>
      .ok
        { action :=
            { action_type := ty
              target := target
              value := value
              reasoning := ad.reasoning.getD ""
              step_description := ad.step_description.getD ""
              should_capture_screenshot := true }
          isLoggedIn := d.is_logged_in.getD false
          isLoginPage := d.is_login_page.getD false
          reasoning := d.reasoning.getD "" }

/-! ## Concrete environments for witnesses and counterexamples -/

/-- A benign concrete browser environment: nothing resolves, native
clicks fail, the JavaScript click reports `false`, every other
primitive succeeds. -/
def benignEnv : ExecEnv :=
  { resolve := fun _ => none
    highlight := fun _ => .ok ()
    nativeClick := fun _ => .error "no element"
    jsClick := fun _ => .ok false
    isContentEditable := fun _ => .ok false
    fill := fun _ _ => .ok ()
    elemClick := fun _ => .ok ()
    kbType := fun _ => .ok ()
    goto := fun _ => .ok ()
    waitLoad := .ok ()
    scrollBy := fun _ => .ok () }

/-! ## Claim C3 — Stability Waiter -/

theorem stabilityGo_one {α : Type} [DecidableEq α] (a : α) (c : Nat) (hc : 1 ≤ c) :
    stabilityGo (some a) c [a] = true := by
  unfold stabilityGo
  by_cases h3 : 3 ≤ c + 1
  · simp [h3]
  · simp [h3, stabilityGo]
    omega

theorem stabilityGo_two {α : Type} [DecidableEq α] (a : α) (c : Nat) :
    stabilityGo (some a) c [a, a] = true := by
  unfold stabilityGo
  by_cases h3 : 3 ≤ c + 1
  · simp [h3]
  · simp [h3, stabilityGo_one a (c + 1) (by omega)]

theorem stabilityGo_three {α : Type} [DecidableEq α] (a : α) (prev : Option α)
    (c : Nat) : stabilityGo prev c [a, a, a] = true := by
  by_cases hp : some a = prev
  · subst hp
    unfold stabilityGo
    by_cases h3 : 3 ≤ c + 1
    · simp [h3]
    · simp [h3, stabilityGo_two a (c + 1)]
  · unfold stabilityGo
    simp [hp, stabilityGo_two a 0]

theorem stabilityGo_append_three {α : Type} [DecidableEq α] (a : α) :
    ∀ (xs : List α) (prev : Option α) (c : Nat),
      stabilityGo prev c (xs ++ [a, a, a]) = true := by
  intro xs
  induction xs with
  | nil => intro prev c; exact stabilityGo_three a prev c
  | cons x xs ih =>
    intro prev c
    show stabilityGo prev c (x :: (xs ++ [a, a, a])) = true
    by_cases hp : some x = prev
    · subst hp
      unfold stabilityGo
      by_cases h3 : 3 ≤ c + 1
      · simp [h3]
      · simp [h3, ih]
    · unfold stabilityGo
      simp [hp, ih]

theorem stabilityGo_all_change {α : Type} [DecidableEq α] :
    ∀ (l : List α) (prev : Option α),
      (∀ x ∈ l.head?, prev ≠ some x) → l.Chain' (· ≠ ·) →
      stabilityGo prev 0 l = false := by
  intro l
  induction l with
  | nil => intro prev _ _; rfl
  | cons h t ih =>
    intro prev hhead hchain
    have hne : ¬(some h = prev) := by
      intro he
      exact hhead h rfl he.symm
    rw [List.chain'_cons'] at hchain
    unfold stabilityGo
    simp only [hne, if_false]
    exact ih (some h)
      (fun x hx hsx => hchain.1 x hx (Option.some.inj hsx)) hchain.2

/-- C3: the claim as stated is false: a fingerprint sequence whose
first three polls are identical can still come back not-stable when the
page keeps changing afterwards, because the in-loop threshold needs a
third consecutive match and the post-loop check looks only at the final
streak. -/
theorem c3_counterexample :
    ([0, 0, 0, 1, 2, 3, 4, 5, 6, 7] : List Nat).take 3 = [0, 0, 0] ∧
    wait_for_stability ([0, 0, 0, 1, 2, 3, 4, 5, 6, 7] : List Nat) = false := by
  decide

/-- C3 (amended): the Stability Waiter returns stable whenever the
polled fingerprint sequence ends with three identical polls (in
particular for a constant three-poll sequence), and returns not-stable
after exhausting its poll budget whenever every polled fingerprint
differs from the previous one. -/
theorem c3_stability (l : List Nat) :
    ((∃ xs a, l = xs ++ [a, a, a]) → wait_for_stability l = true) ∧
    (l.Chain' (· ≠ ·) → wait_for_stability l = false) := by
  constructor
  · rintro ⟨xs, a, rfl⟩
    exact stabilityGo_append_three a xs none 0
  · intro hchain
    exact stabilityGo_all_change l none (by simp) hchain

/-- C3 witness: the amended theorem applied to a concrete stable and a
concrete always-changing poll sequence. -/
theorem c3_stability_witness :
    wait_for_stability ([5, 5, 5] : List Nat) = true ∧
    wait_for_stability ([1, 2, 3] : List Nat) = false :=
  ⟨(c3_stability [5, 5, 5]).1 ⟨[], 5, rfl⟩,
   (c3_stability [1, 2, 3]).2 (by simp [List.chain'_cons])⟩

/-! ## Claim C1 — retry-reset path -/

/-- C1: `_reset_actions` leaves the navigated-to-login milestone true
for every milestone state, and the only milestones it can change from
true to false are the secret-related (identifier/advance/secret/submit)
ones. -/
theorem c1_reset_actions (s : ActionsTaken) (m : Milestone) :
    (reset_actions s).navigated_to_login = true ∧
    (getMilestone s m = true → getMilestone (reset_actions s) m = false →
      m ∈ secretRelatedMilestones) := by
  constructor
  · rfl
  · intro h1 h2
    cases m <;> simp_all [getMilestone, reset_actions, secretRelatedMilestones]

/-- C1 witness: the reset applied to the all-true milestone state. -/
theorem c1_reset_actions_witness :
    (reset_actions ⟨true, true, true, true, true⟩).navigated_to_login = true ∧
    Milestone.filledEmail ∈ secretRelatedMilestones :=
  ⟨(c1_reset_actions ⟨true, true, true, true, true⟩ .filledEmail).1,
   (c1_reset_actions ⟨true, true, true, true, true⟩ .filledEmail).2 rfl rfl⟩

/-! ## Claim C10 — missing-credentials guard -/

/-- C10: with a falsy identifier (no truthy `email` or `username`) or a
falsy password, `authenticate` returns `False` with an empty
interaction trace: no screenshot, no browser interaction, no
authentication step is consumed. -/
theorem c10_missing_credentials (cfg : AuthCfg) (creds : Credentials)
    (maxSteps : Nat)
    (h : (pyFalsy (pyOr creds.email creds.username) || pyFalsy creds.password) = true) :
    authenticate cfg creds maxSteps = ([], false) := by
  simp [authenticate, h]

/-- C10 witness: an entirely empty credentials map. -/
theorem c10_missing_credentials_witness :
    (pyFalsy (pyOr ({} : Credentials).email ({} : Credentials).username) ||
      pyFalsy ({} : Credentials).password) = true ∧
    authenticate {} {} 10 = ([], false) :=
  ⟨rfl, c10_missing_credentials {} {} 10 rfl⟩

/-! ## Claim C9 — falsy type-action payloads -/

/-- C9: a type action whose target or value is `None` or the empty
string makes `execute` return `False` with no page interaction; the
empty string is treated exactly like a missing value. -/
theorem c9_empty_type_payload (env : ExecEnv) (a : AgentAction)
    (hty : a.action_type = ActionType.typeText)
    (h : (pyFalsy a.target || pyFalsy a.value) = true) :
    execute env a = ⟨[], Except.ok false⟩ := by
  simp [execute, executeAction, hty, executeType, h, tryCatchE]

/-- C9 witness: a type action carrying an empty-string value. -/
theorem c9_empty_type_payload_witness :
    execute benignEnv
      { action_type := .typeText, target := some "[3]", value := some ""
        should_capture_screenshot := true } = ⟨[], Except.ok false⟩ :=
  c9_empty_type_payload benignEnv _ rfl rfl

/-! ## Claim C7 — executor never throws -/

/-- C7: for every environment (whose primitives may raise) and every
action, `execute` yields a boolean outcome: no exception escapes its
boundary. -/
theorem c7_execute_total (env : ExecEnv) (a : AgentAction) :
    ∃ b : Bool, (execute env a).result = Except.ok b := by
  unfold execute tryCatchE
  cases h : (executeAction env a).result with
  | ok b => exact ⟨b, by simp [h]⟩
  | error e => exact ⟨false, by simp [h]⟩

/-! ## Claim C8 — malformed oracle responses fall back to wait -/

/-- C8: when the response contains no JSON the parser accepts
(`loads` rejects every candidate slice), both the task-loop agent's
`_parse_action_response` and the login agent's `decide_login_action`
return their neutral wait action instead of raising. -/
theorem c8_malformed_wait {J : Type} (loads : String → Option J)
    (toAction : J → Option AgentAction) (decode : J → DecisionJ)
    (creds : Credentials) (response : String)
    (hbad : ∀ s, loads s = none) :
    (parse_action_response loads toAction response).action_type = ActionType.wait ∧
    decide_login_action loads decode creds response = Except.ok loginParseFallback ∧
    loginParseFallback.action.action_type = ActionType.wait := by
  refine ⟨?_, ?_, rfl⟩
  · unfold parse_action_response
    simp only [hbad]
    split
    · rfl
    · split <;> rfl
  · unfold decide_login_action
    rw [hbad]

/-- C8 witness: a parser that accepts nothing, applied to a garbage
response. -/
theorem c8_malformed_wait_witness :
    (parse_action_response (fun _ => (none : Option Unit)) (fun _ => none)
      "no json here").action_type = ActionType.wait ∧
    decide_login_action (fun _ => (none : Option Unit)) (fun _ => {}) {}
      "no json here" = Except.ok loginParseFallback ∧
    loginParseFallback.action.action_type = ActionType.wait :=
  c8_malformed_wait (fun _ => none) (fun _ => none) (fun _ => {}) {}
    "no json here" (fun _ => rfl)

/-! ## Claim C5 — sign-up exclusion in `_navigate_to_login_page` -/

theorem firstQueryFiltered_ok (page : Page) (ok : PageElem → Bool) :
    ∀ (ms : List (PageElem → Bool)) (e : PageElem),
      firstQueryFiltered page ok ms = some e → ok e = true := by
  intro ms
  induction ms with
  | nil => intro e h; simp [firstQueryFiltered] at h
  | cons m rest ih =>
    intro e h
    unfold firstQueryFiltered at h
    cases hq : queryVisible page m with
    | none =>
      rw [hq] at h
      exact ih e h
    | some e0 =>
      rw [hq] at h
      dsimp only at h
      by_cases hok : ok e0 = true
      · rw [if_pos hok] at h
        injection h with he
        rw [← he]
        exact hok
      · rw [if_neg hok] at h
        exact ih e h

/-- C5: the claim as stated is false: a visible link whose text
contains the sign-up-indicating term "register" is clicked by the
href-pattern fallback when its href matches `/login`, because that
fallback re-checks only "sign up" and "signup". -/
theorem c5_counterexample :
    navigate_to_login_page
      [{ tag := "a", text := "Register for login", href := some "/login" }] =
      some { tag := "a", text := "Register for login", href := some "/login" } ∧
    containsCI "Register for login" "register" = true ∧
    ({ tag := "a", text := "Register for login", href := some "/login" } : PageElem).visible
      = true := by
  refine ⟨?_, by decide, rfl⟩
  decide

/-- C5 (amended): no element whose visible text contains "sign up" or
"signup" is ever clicked by `_navigate_to_login_page` — neither by the
text selectors nor by the href-pattern fallback; the term "register" is
additionally excluded by the text-selector phase, but not by the
href-pattern fallback. -/
theorem c5_no_signup_click (page : Page) (e : PageElem)
    (h : navigate_to_login_page page = some e) :
    containsCI e.text "sign up" = false ∧ containsCI e.text "signup" = false := by
  unfold navigate_to_login_page at h
  cases h1 : firstQueryFiltered page (fun e => !signupText3 e) loginTextSelectors with
  | some e0 =>
    rw [h1] at h
    injection h with he
    subst he
    have h2 := firstQueryFiltered_ok page _ loginTextSelectors e0 h1
    simp only [Bool.not_eq_true', signupText3, Bool.or_eq_false_iff] at h2
    exact ⟨h2.1.1, h2.1.2⟩
  | none =>
    rw [h1] at h
    have h2 := firstQueryFiltered_ok page _ [hrefSelLogin, hrefSelSignin] e h
    simp only [Bool.not_eq_true', signupText2, Bool.or_eq_false_iff] at h2
    exact h2

/-- C5 witness: a page with a plain visible "Sign in" link. -/
theorem c5_no_signup_click_witness :
    navigate_to_login_page [{ tag := "a", text := "Sign in" }] =
      some { tag := "a", text := "Sign in" } ∧
    containsCI ({ tag := "a", text := "Sign in" } : PageElem).text "sign up" = false ∧
    containsCI ({ tag := "a", text := "Sign in" } : PageElem).text "signup" = false :=
  ⟨by decide,
   (c5_no_signup_click [{ tag := "a", text := "Sign in" }]
      { tag := "a", text := "Sign in" } (by decide)).1,
   (c5_no_signup_click [{ tag := "a", text := "Sign in" }]
      { tag := "a", text := "Sign in" } (by decide)).2⟩

/-! ## Claim C6 — single-page login skips the advance step -/

/-- C6: when the iteration reaches the advance step (login-navigation
and identifier milestones already set, advance milestone not yet set,
the oracle did not report a logged-in state, the page fingerprint
changed so no stuck escalation fires) and a password field is already
visible, the advance milestone is set in that iteration while the only
effects are the observation prelude (mark, screenshot, unmark): no
Continue/Next click and no oracle escalation is executed. -/
theorem c6_skip_advance (cfg : AuthCfg) (env : IterEnv) (s : AuthState)
    (hnav : s.actions.navigated_to_login = true)
    (hmail : s.actions.filled_email = true)
    (hadv : s.actions.clicked_continue_after_email = false)
    (hlogin : env.vision.isLoggedIn = false)
    (hpw : is_password_field_visible env.page = true)
    (hchanged : s.previousState ≠ some (get_page_state env)) :
    authIteration cfg env s =
      (preludeEffs cfg,
       IterOut.next
         { actions := { s.actions with clicked_continue_after_email := true }
           previousState := some (get_page_state env)
           stuckCounter := 0 }) ∧
    (preludeEffs cfg).filter isPageAction = [] := by
  have h1 : ¬(some (get_page_state env) = s.previousState) :=
    fun h => hchanged h.symm
  constructor
  · simp [authIteration, h1, hlogin, stuckBlock, maxStuckIterations, seqB,
      navBlock, hnav, emailBlock, hmail, advanceBlock, hadv, hpw, toIterOut]
  · unfold preludeEffs
    cases cfg.hasSom <;> simp [isPageAction]

/-- C6 witness: a page exposing a visible password input, with the
navigation and identifier milestones already set. -/
theorem c6_skip_advance_witness :
    authIteration {} { page := [{ tag := "input", typeAttr := some "password" }] }
      { actions :=
          { navigated_to_login := true, filled_email := true
            clicked_continue_after_email := false, filled_password := false
            submitted_login := false }
        previousState := none, stuckCounter := 0 } =
      (preludeEffs {},
       IterOut.next
         { actions :=
             { navigated_to_login := true, filled_email := true
               clicked_continue_after_email := true, filled_password := false
               submitted_login := false }
           previousState :=
             some (get_page_state
               { page := [{ tag := "input", typeAttr := some "password" }] })
           stuckCounter := 0 }) ∧
    (preludeEffs {}).filter isPageAction = [] :=
  c6_skip_advance {} { page := [{ tag := "input", typeAttr := some "password" }] }
    { actions :=
        { navigated_to_login := true, filled_email := true
          clicked_continue_after_email := false, filled_password := false
          submitted_login := false }
      previousState := none, stuckCounter := 0 }
    rfl rfl rfl rfl (by decide) (by simp)

/-! ## Claims C2 and C4 — click-target handling in the executor -/

theorem parseIntPy_digits (l : List Char) (hne : l.isEmpty = false)
    (hdig : l.all Char.isDigit = true) :
    parseIntPy l = some ((digitsToNat l : Nat) : Int) := by
  cases l with
  | nil => simp at hne
  | cons c rest =>
    have hc : c.isDigit = true := by
      simp [List.all_cons] at hdig
      exact hdig.1
    have hdash : (c == '-') = false := by
      cases hq : c == '-'
      · rfl
      · exfalso
        have hce : c = '-' := beq_iff_eq.mp hq
        rw [hce] at hc
        simp [Char.isDigit] at hc
    unfold parseIntPy
    simp only [hdash, Bool.false_eq_true, if_false]
    simp [List.all_cons, hc, hdig]

theorem bracket_data (s : String) :
    ("[" ++ s ++ "]").data = '[' :: (s.data ++ [']']) := by
  simp [String.data_append]

theorem bracket_marks (s : String) :
    (startsWithL ("[" ++ s ++ "]").data ['['] &&
      endsWithL ("[" ++ s ++ "]").data [']']) = true := by
  rw [bracket_data]
  simp [startsWithL, endsWithL, List.reverse_append]

theorem bracket_strip (s : String) :
    stripEnds ("[" ++ s ++ "]").data = s.data := by
  rw [bracket_data]
  simp [stripEnds, List.dropLast_concat]

/-- Full value of `execute` on a bracketed click target whose
highlight succeeds and whose lookahead does not shift the marker:
the marker, marker+1, and (for a positive marker) marker-1 are tried
in order. -/
theorem execute_click_value (env : ExecEnv) (a : AgentAction) (t : String)
    (k : Int)
    (hty : a.action_type = ActionType.click)
    (htar : a.target = some t)
    (hbr : (startsWithL t.data ['['] && endsWithL t.data [']']) = true)
    (hparse : parseIntPy (stripEnds t.data) = some k)
    (hhl : env.highlight k = Except.ok ())
    (hmid : midAdjust env a k = k) :
    execute env a =
      if tryClickResult env k then
        ⟨[PEff.highlight k, PEff.tryClick k], Except.ok true⟩
      else if tryClickResult env (k + 1) then
        ⟨[PEff.highlight k, PEff.tryClick k, PEff.tryClick (k + 1)],
          Except.ok true⟩
      else if 0 < k then
        if tryClickResult env (k - 1) then
          ⟨[PEff.highlight k, PEff.tryClick k, PEff.tryClick (k + 1),
            PEff.tryClick (k - 1)], Except.ok true⟩
        else
          ⟨[PEff.highlight k, PEff.tryClick k, PEff.tryClick (k + 1),
            PEff.tryClick (k - 1)], Except.ok false⟩
      else
        ⟨[PEff.highlight k, PEff.tryClick k, PEff.tryClick (k + 1)],
          Except.ok false⟩ := by
  simp only [execute, executeAction, hty]
  unfold executeClick
  rw [htar]
  simp only [hbr, if_true, hparse]
  simp only [callE, hhl, tryClickMarker, hmid, ERes.bind_def, ERes.bindE_mk_ok,
    ERes.pure_def]
  cases h0 : tryClickResult env k with
  | true => simp [tryCatchE, h0]
  | false =>
    cases h1 : tryClickResult env (k + 1) with
    | true => simp [tryCatchE, ERes.bindE, h0, h1]
    | false =>
      by_cases hk : 0 < k
      · cases h2 : tryClickResult env (k - 1) with
        | true => simp [tryCatchE, ERes.bindE, h0, h1, h2, hk]
        | false => simp [tryCatchE, ERes.bindE, h0, h1, h2, hk]
      · simp [tryCatchE, ERes.bindE, h0, h1, hk]

/-- C2: a bare-digit oracle target is normalized by
`decide_login_action` to the bracketed form, and on such a target (with
a description that does not trigger the lookahead and a successful
highlight) the executor's first click attempt is exactly that numeric
index — the target is not rejected as non-standard. -/
theorem c2_bare_digit_target (env : ExecEnv) (s : String) (a : AgentAction)
    (hdig : pyIsDigit s = true)
    (hty : a.action_type = ActionType.click)
    (htar : a.target = fixTarget (some s))
    (hdesc : mentionsButtonContinue a.step_description = false)
    (hhl : env.highlight ((digitsToNat s.data : Nat) : Int) = Except.ok ()) :
    fixTarget (some s) = some ("[" ++ s ++ "]") ∧
    (clickAttempts (execute env a).trace).head? =
      some ((digitsToNat s.data : Nat) : Int) := by
  have hfix : fixTarget (some s) = some ("[" ++ s ++ "]") := by
    simp [fixTarget, hdig]
  refine ⟨hfix, ?_⟩
  rw [hfix] at htar
  have hne : s.data.isEmpty = false := by
    unfold pyIsDigit at hdig
    cases hq : s.data.isEmpty
    · rfl
    · rw [hq] at hdig
      simp at hdig
  have hall : s.data.all Char.isDigit = true := by
    unfold pyIsDigit at hdig
    cases hq : s.data.all Char.isDigit
    · rw [hq] at hdig
      simp at hdig
    · rfl
  have hparse : parseIntPy (stripEnds ("[" ++ s ++ "]").data) =
      some ((digitsToNat s.data : Nat) : Int) := by
    rw [bracket_strip]
    exact parseIntPy_digits s.data hne hall
  have hmid : midAdjust env a ((digitsToNat s.data : Nat) : Int) =
      ((digitsToNat s.data : Nat) : Int) := by
    cases hr : env.resolve ((digitsToNat s.data : Nat) : Int) <;>
      simp [midAdjust, hr, hdesc]
  rw [execute_click_value env a ("[" ++ s ++ "]")
    ((digitsToNat s.data : Nat) : Int) hty htar (bracket_marks s) hparse hhl hmid]
  by_cases h0 : tryClickResult env ((digitsToNat s.data : Nat) : Int)
  · simp [h0, clickAttempts]
  · by_cases h1 : tryClickResult env (((digitsToNat s.data : Nat) : Int) + 1)
    · simp [h0, h1, clickAttempts]
    · by_cases hk : (0 : Int) < ((digitsToNat s.data : Nat) : Int)
      · by_cases h2 : tryClickResult env (((digitsToNat s.data : Nat) : Int) - 1) <;>
          simp [h0, h1, h2, hk, clickAttempts]
      · simp [h0, h1, hk, clickAttempts]

/-- C2 witness: the literal bare-digit target `"7"`. -/
theorem c2_bare_digit_target_witness :
    fixTarget (some "7") = some ("[" ++ "7" ++ "]") ∧
    (clickAttempts (execute benignEnv
      { action_type := .click, target := fixTarget (some "7")
        should_capture_screenshot := true }).trace).head? =
      some ((digitsToNat "7".data : Nat) : Int) :=
  c2_bare_digit_target benignEnv "7"
    { action_type := .click, target := fixTarget (some "7")
      should_capture_screenshot := true }
    rfl rfl rfl rfl rfl

/-- A concrete click action whose bracketed target carries a negative
index (Python `int("-5")` parses it). -/
def negClickAction : AgentAction :=
  { action_type := .click, target := some "[-5]"
    should_capture_screenshot := true }

/-- C4: the claim as stated is false: for the out-of-range target
`"[-5]"` (which resolves to no element) the executor attempts clicks at
the negative indices -5 and -4 — "never attempts a negative index"
fails for a negative requested index. -/
theorem c4_counterexample :
    clickAttempts (execute benignEnv negClickAction).trace = [-5, -4] ∧
    (execute benignEnv negClickAction).result = Except.ok false ∧
    (-5 : Int) ∈ clickAttempts (execute benignEnv negClickAction).trace ∧
    (-5 : Int) < 0 := by
  refine ⟨by decide, rfl, by decide, by decide⟩

/-- C4 (amended): for a click whose bracketed target parses to a
non-negative index that resolves to no element (and whose highlight
succeeds), whenever the executor reports failure it has attempted
exactly the index, then index+1, then (when the index is positive)
index-1 — and for such non-negative requested indices no attempted
index is negative (the index-1 attempt is skipped at index 0). -/
theorem c4_out_of_range (env : ExecEnv) (a : AgentAction) (t : String) (k : Int)
    (hty : a.action_type = ActionType.click)
    (htar : a.target = some t)
    (hbr : (startsWithL t.data ['['] && endsWithL t.data [']']) = true)
    (hparse : parseIntPy (stripEnds t.data) = some k)
    (hk : 0 ≤ k)
    (hhl : env.highlight k = Except.ok ())
    (hres : env.resolve k = none)
    (hfail : (execute env a).result = Except.ok false) :
    clickAttempts (execute env a).trace =
      [k, k + 1] ++ (if 0 < k then [k - 1] else []) ∧
    ∀ i ∈ clickAttempts (execute env a).trace, 0 ≤ i := by
  have hmid : midAdjust env a k = k := by simp [midAdjust, hres]
  rw [execute_click_value env a t k hty htar hbr hparse hhl hmid] at hfail ⊢
  by_cases h0 : tryClickResult env k
  · simp [h0] at hfail
  · by_cases h1 : tryClickResult env (k + 1)
    · simp [h0, h1] at hfail
    · by_cases hpos : 0 < k
      · by_cases h2 : tryClickResult env (k - 1)
        · simp [h0, h1, h2, hpos] at hfail
        · constructor
          · simp [h0, h1, h2, hpos, clickAttempts]
          · intro i hi
            simp [h0, h1, h2, hpos, clickAttempts] at hi
            rcases hi with rfl | rfl | rfl <;> omega
      · constructor
        · simp [h0, h1, hpos, clickAttempts]
        · intro i hi
          simp [h0, h1, hpos, clickAttempts] at hi
          rcases hi with rfl | rfl <;> omega

/-- C4 witness: the out-of-range non-negative target `"[0]"` on an
empty page — index-1 is skipped and only 0 and 1 are attempted. -/
theorem c4_out_of_range_witness :
    clickAttempts (execute benignEnv
      { action_type := .click, target := some "[0]"
        should_capture_screenshot := true }).trace =
      [0, 0 + 1] ++ (if (0 : Int) < 0 then [(0 : Int) - 1] else []) ∧
    ∀ i ∈ clickAttempts (execute benignEnv
      { action_type := .click, target := some "[0]"
        should_capture_screenshot := true }).trace, 0 ≤ i :=
  c4_out_of_range benignEnv
    { action_type := .click, target := some "[0]"
      should_capture_screenshot := true }
    "[0]" 0 rfl rfl rfl rfl (by decide) rfl rfl rfl

end AgentB
